import Mathlib

/-!
Shallow embedding of the book-release notification script `line_to_bot.py`
and proofs about its filtering, sorting, formatting, chunking, fetching and
orchestration behaviour.

Modelling conventions:
* text is `List Char` (Python `str` is a sequence of code points);
* a Python function that can raise an exception is embedded as a function
  returning `Option`, where `none` means "an exception propagated";
* calendar dates are represented by their proleptic Gregorian ordinal
  (the value of Python's `date.toordinal`); comparison and day arithmetic
  on `datetime.date` coincide with comparison and arithmetic on ordinals;
* `datetime.today().date()` is passed in as an explicit `today` ordinal;
* the network is a function from the requested URL to the parsed response;
* digits and whitespace are modelled at their ASCII code points (the
  scraped data is ASCII digits, dots and the localized suffix).
-/

/-- Whitespace test used by the model of Python's `str.strip` (space, tab,
newline, carriage return, vertical tab, form feed). -/
def pyIsSpace (c : Char) : Bool :=
  c.toNat == 32 || c.toNat == 9 || c.toNat == 10 || c.toNat == 13 ||
    c.toNat == 11 || c.toNat == 12

/-- Model of Python's `str.strip()`: drop leading and trailing whitespace. -/
def pyStrip (l : List Char) : List Char :=
  ((l.dropWhile pyIsSpace).reverse.dropWhile pyIsSpace).reverse

/-- Model of `s.replace('発売', '')`: delete every (non-overlapping,
left-to-right) occurrence of the two-character suffix token `発売`. -/
def remove_hatsubai : List Char → List Char
  | [] => []
  | [c] => [c]
  | c1 :: c2 :: rest =>
    if c1 = '発' ∧ c2 = '売' then remove_hatsubai rest
    else c1 :: remove_hatsubai (c2 :: rest)

/-- ASCII decimal digit test (the `\d` of the `strptime` regex on the
scraped data). -/
def isDig (c : Char) : Bool := 48 ≤ c.toNat && c.toNat ≤ 57

/-- Numeric value of an ASCII digit character. -/
def dval (c : Char) : Nat := c.toNat - 48

/-- Value of a two-digit group. -/
def val2 (a b : Char) : Nat := 10 * dval a + dval b

/-- Value of a four-digit group. -/
def val4 (a b c d : Char) : Nat :=
  1000 * dval a + 100 * dval b + 10 * dval c + dval d

/-- Gregorian leap-year test (as in Python's `calendar.isleap`). -/
def isLeapYear (y : Nat) : Bool :=
  y % 4 == 0 && (y % 100 != 0 || y % 400 == 0)

/-- Number of days in a month, matching `datetime`'s validation table. -/
def daysInMonth (y m : Nat) : Nat :=
  match m with
  | 2 => if isLeapYear y then 29 else 28
  | 4 => 30
  | 6 => 30
  | 9 => 30
  | 11 => 30
  | _ => 31

/-- Days in year `y` before month `m` (cumulative month lengths plus a
leap-day correction after February). -/
def daysBeforeMonth (y m : Nat) : Nat :=
  (match m with
   | 1 => 0 | 2 => 31 | 3 => 59 | 4 => 90 | 5 => 120 | 6 => 151
   | 7 => 181 | 8 => 212 | 9 => 243 | 10 => 273 | 11 => 304 | _ => 334) +
  (if 2 < m ∧ isLeapYear y then 1 else 0)

/-- Proleptic Gregorian ordinal of a calendar date, the value of Python's
`date(y, m, d).toordinal()` (so `dateOrd 1 1 1 = 1`). -/
def dateOrd (y m d : Nat) : Nat :=
  365 * (y - 1) + (y - 1) / 4 - (y - 1) / 100 + (y - 1) / 400 +
    daysBeforeMonth y m + d

/-- Validation performed by the `datetime.date` constructor after the
`strptime` regex has matched: month in range, day in range for the month,
year at least `MINYEAR = 1` (a four-digit year is at most `MAXYEAR = 9999`
already). -/
def mkDate (y m d : Nat) : Option (Nat × Nat × Nat) :=
  if 1 ≤ y ∧ 1 ≤ m ∧ m ≤ 12 ∧ 1 ≤ d ∧ d ≤ daysInMonth y m
  then some (y, m, d) else none

/-- Model of `datetime.strptime(s, '%Y.%m.%d').date()`: a four-digit year,
a dot, a one- or two-digit month, a dot, a one- or two-digit day, end of
string (the regex has no leftover data), then `datetime.date` validation.
The regex prefers the two-digit month/day alternatives, which the pattern
order reproduces. Returns `none` where Python raises `ValueError`. -/
def parseYMD : List Char → Option (Nat × Nat × Nat)
  | [y1, y2, y3, y4, '.', m1, m2, '.', d1, d2] =>
    if isDig y1 && isDig y2 && isDig y3 && isDig y4 && isDig m1 && isDig m2
        && isDig d1 && isDig d2
    then mkDate (val4 y1 y2 y3 y4) (val2 m1 m2) (val2 d1 d2) else none
  | [y1, y2, y3, y4, '.', m1, m2, '.', d1] =>
    if isDig y1 && isDig y2 && isDig y3 && isDig y4 && isDig m1 && isDig m2
        && isDig d1
    then mkDate (val4 y1 y2 y3 y4) (val2 m1 m2) (dval d1) else none
  | [y1, y2, y3, y4, '.', m1, '.', d1, d2] =>
    if isDig y1 && isDig y2 && isDig y3 && isDig y4 && isDig m1
        && isDig d1 && isDig d2
    then mkDate (val4 y1 y2 y3 y4) (dval m1) (val2 d1 d2) else none
  | [y1, y2, y3, y4, '.', m1, '.', d1] =>
    if isDig y1 && isDig y2 && isDig y3 && isDig y4 && isDig m1 && isDig d1
    then mkDate (val4 y1 y2 y3 y4) (dval m1) (dval d1) else none
  | _ => none

/-- The strip-then-parse procedure applied to a raw `release_date` field:
`datetime.strptime(x.replace('発売', '').strip(), '%Y.%m.%d').date()`. -/
def parse_release_date (s : List Char) : Option (Nat × Nat × Nat) :=
  parseYMD (pyStrip (remove_hatsubai s))

/-- A book record as built by `fetch_books_from_page`. -/
structure Book where
  title : List Char
  release_date : List Char
  description : List Char
deriving DecidableEq

/-- Ordinal of a record's parsed release date, `none` when parsing raises. -/
def bookOrd (b : Book) : Option Nat :=
  (parse_release_date b.release_date).map (fun t => dateOrd t.1 t.2.1 t.2.2)

/-- The per-record test of `filter_books_by_3_months_and_upcoming`:
`release_date > today or three_months_ago <= release_date <= today`, with
`three_months_ago = today - timedelta(days=90)`; a record whose date fails
to parse is skipped (`except ValueError: continue`). -/
def keepBook (today : Nat) (b : Book) : Bool :=
  match bookOrd b with
  | some releaseOrd =>
    decide (today < releaseOrd ∨ (today - 90 ≤ releaseOrd ∧ releaseOrd ≤ today))
  | none => false

/-- Model of `filter_books_by_3_months_and_upcoming` (the loop appends, in
input order, exactly the records passing `keepBook`). -/
def filter_books_by_3_months_and_upcoming (today : Nat) (books : List Book) :
    List Book :=
  books.filter (keepBook today)

/-- Sort key of `sort_books_by_date` on records whose date parses (inside
`sort_books_by_date` it is only applied when every date parses). -/
def sortKeyOrd (b : Book) : Nat := (bookOrd b).getD 0

/-- Stable descending insertion keyed by `sortKeyOrd`: the inserted element
goes before every element with an equal or smaller key. -/
def insertDesc (x : Book) : List Book → List Book
  | [] => [x]
  | y :: ys =>
    if sortKeyOrd y ≤ sortKeyOrd x then x :: y :: ys else y :: insertDesc x ys

/-- Stable descending insertion sort keyed by `sortKeyOrd`. -/
def sortDesc : List Book → List Book
  | [] => []
  | x :: xs => insertDesc x (sortDesc xs)

/-- Model of `sort_books_by_date`, i.e. `sorted(books, key=..., reverse=True)`.
Python's `sorted` is the unique stable descending-by-key permutation, which
`sortDesc` computes. Evaluating the key raises `ValueError` when any record's
date fails to parse, so the whole call raises: that is the `none` branch. -/
def sort_books_by_date (books : List Book) : Option (List Book) :=
  if books.all (fun b => (bookOrd b).isSome) then some (sortDesc books)
  else none

/-- The fixed "no new books found" message. -/
def noBooksMessage : List Char := "新刊書籍は見つかりませんでした。".toList

/-- Header line of the digest. -/
def digestHeader : List Char := "近日発売予定の技術書籍:\n\n".toList

/-- One record's block in the digest, the f-string
`f"タイトル: {title}\n発売日: {release_date}\n説明: {description}\n\n"`. -/
def bookBlock (b : Book) : List Char :=
  "タイトル: ".toList ++ b.title ++ "\n発売日: ".toList ++ b.release_date ++
    "\n説明: ".toList ++ b.description ++ "\n\n".toList

/-- Model of `format_message`: the fixed message on an empty list, else the
header followed by the accumulated blocks. -/
def format_message (books : List Book) : List Char :=
  if books = [] then noBooksMessage
  else books.foldl (fun msg b => msg ++ bookBlock b) digestHeader

/-- Chunking of `send_line_message`:
`[message[i:i+5000] for i in range(0, len(message), 5000)]`.
`range(0, n, 5000)` has `⌈n / 5000⌉` elements, its `j`-th element is
`5000 * j`, and the slice `message[i:i+5000]` is `take 5000` of `drop i`. -/
def chunkMessage (s : List Char) : List (List Char) :=
  (List.range ((s.length + 4999) / 5000)).map
    (fun i => (s.drop (5000 * i)).take 5000)

/-- One push request to the messaging API: endpoint, authorization header
value, recipient and the text of the single message segment. -/
structure PushRequest where
  url : List Char
  auth : List Char
  /-- the `'to'` field of the JSON body (`to` is reserved in Lean). -/
  toRecipient : List Char
  text : List Char
deriving DecidableEq

/-- The environment-provided configuration read at module load. -/
structure Env where
  line_channel_access_token : List Char
  line_user_id : List Char
  line_bot_push_url : List Char
  seshop_url : List Char
deriving DecidableEq

/-- Model of `send_line_message`: the sequence of push requests issued, in
order — one per chunk, each to the same configured recipient, with the
bearer credential in the authorization header. -/
def send_line_message (env : Env) (message : List Char) : List PushRequest :=
  (chunkMessage message).map (fun msg =>
    { url := env.line_bot_push_url
      auth := "Bearer ".toList ++ env.line_channel_access_token
      toRecipient := env.line_user_id
      text := msg })

/-- The part of a listing item reached through `item.find('div', class_='txt')`:
the text of its first `<a>` (if any) and the texts of all its `<p>` tags. -/
structure TxtDiv where
  firstLink : Option (List Char)
  paragraphs : List (List Char)

/-- One listing item (`div.col-md-4.col-sm-6`): its first `div.txt` child
(if any) and the text of its first `span.date` (if any). -/
structure Item where
  txtDiv : Option TxtDiv
  dateSpan : Option (List Char)

/-- A parsed HTTP response from the catalog site. -/
structure Response where
  status : Nat
  items : List Item

/-- The `"N/A"` sentinel. -/
def naSentinel : List Char := "N/A".toList

/-- Field extraction for one item. `item.find('div', class_='txt')` returns
`None` when the div is absent, and the immediate `.find('a')` on it then
raises `AttributeError` — the `none` result. Otherwise each field falls back
to `"N/A"` when its own sub-element is missing. -/
def extract_book (item : Item) : Option Book :=
  match item.txtDiv with
  | none => none
  | some t =>
    let title := match t.firstLink with
      | some s => pyStrip s
      | none => naSentinel
    let release_date := match item.dateSpan with
      | some s => pyStrip s
      | none => naSentinel
    let description :=
      if h : 1 < t.paragraphs.length then pyStrip (t.paragraphs.get ⟨1, h⟩)
      else naSentinel
    some { title := title, release_date := release_date,
           description := description }

/-- Model of `fetch_books_from_page`: a non-200 status yields the empty
list (after logging); otherwise the items are extracted in order, an
extraction exception aborting the whole call. -/
def fetch_books_from_page (net : List Char → Response) (url : List Char) :
    Option (List Book) :=
  let response := net url
  if response.status ≠ 200 then some []
  else response.items.mapM extract_book

/-- URL built for one (category, page) pair: `f'{SESHOP_URL}/{category}?p={page}'`. -/
def pageUrl (base : List Char) (category page : Nat) : List Char :=
  base ++ ('/' :: ((toString category).toList ++
    ('?' :: 'p' :: '=' :: (toString page).toList)))

/-- The (category, page) pairs of `fetch_all_books`, category outer loop
over `[7, 8]`, page inner loop over `range(1, 5)`. -/
def categoryPages : List (Nat × Nat) :=
  ([7, 8] : List Nat).flatMap
    (fun category => (List.range' 1 4).map (fun page => (category, page)))

/-- Loop body of `fetch_all_books` over the remaining (category, page)
pairs, accumulating the books fetched so far. Returns the trace of URLs
requested (in order) and the accumulated list, `none` when a page fetch
raised (no further page is requested after an exception). -/
def fetchAllGo (net : List Char → Response) (base : List Char)
    (acc : List Book) : List (Nat × Nat) → List (List Char) × Option (List Book)
  | [] => ([], some acc)
  | (category, page) :: rest =>
    let url := pageUrl base category page
    match fetch_books_from_page net url with
    | none => ([url], none)
    | some books =>
      let result := fetchAllGo net base (acc ++ books) rest
      (url :: result.1, result.2)

/-- Model of `fetch_all_books`: the URL trace and the concatenated results
of the nested category/page loop. -/
def fetch_all_books (net : List Char → Response) (base : List Char) :
    List (List Char) × Option (List Book) :=
  fetchAllGo net base [] categoryPages

/-- JSON string escaping for one character, as performed by `json.dumps`
on the printable-ASCII strings used here. -/
def jsonEscapeChar (c : Char) : List Char :=
  if c = '"' then ['\\', '"'] else if c = '\\' then ['\\', '\\'] else [c]

/-- Model of `json.dumps` applied to a string of printable ASCII: the
escaped text wrapped in double quote characters. -/
def json_dumps_str (s : List Char) : List Char :=
  '"' :: (s.flatMap jsonEscapeChar ++ ['"'])

/-- The response dictionary returned by `lambda_handler`. -/
structure LambdaResponse where
  statusCode : Nat
  body : List Char
deriving DecidableEq

/-- Model of `main`: fetch, filter (relative to `today`), sort, then send
either the formatted digest or the fixed "no books" message. The value is
the sequence of push requests issued; `none` when an exception propagated
out of the pipeline. -/
def main_run (net : List Char → Response) (env : Env) (today : Nat) :
    Option (List PushRequest) :=
  match (fetch_all_books net env.seshop_url).2 with
  | none => none
  | some all_books =>
    let filtered_books := filter_books_by_3_months_and_upcoming today all_books
    match sort_books_by_date filtered_books with
    | none => none
    | some sorted_books =>
      if sorted_books ≠ [] then
        some (send_line_message env (format_message sorted_books))
      else
        some (send_line_message env noBooksMessage)

/-- Model of `lambda_handler`: ignores `event` and `context`, runs `main`
once, and returns `{'statusCode': 200, 'body': json.dumps('News sent successfully!')}`;
an exception from the pipeline propagates. -/
def lambda_handler {α β : Type} (_event : α) (_context : β)
    (net : List Char → Response) (env : Env) (today : Nat) :
    Option (List PushRequest × LambdaResponse) :=
  (main_run net env today).map (fun reqs =>
    (reqs, { statusCode := 200
             body := json_dumps_str "News sent successfully!".toList }))

/-! ## Chunking lemmas -/

theorem chunkMessage_nil : chunkMessage [] = [] := rfl

/-- Unfolding of the chunk list on a non-empty message: the first chunk is
the first 5000 characters, the rest chunk the remainder. -/
theorem chunkMessage_cons {s : List Char} (h : s ≠ []) :
    chunkMessage s = s.take 5000 :: chunkMessage (s.drop 5000) := by
  have hpos : 0 < s.length := List.length_pos.mpr h
  have hk : (s.length + 4999) / 5000 = ((s.drop 5000).length + 4999) / 5000 + 1 := by
    simp only [List.length_drop]
    omega
  rw [chunkMessage, hk, List.range_succ_eq_map]
  simp only [List.map_cons, List.map_map, Nat.mul_zero, List.drop_zero]
  congr 1
  rw [chunkMessage]
  apply List.map_congr_left
  intro i _
  simp only [Function.comp_apply, List.drop_drop]
  congr 2
  omega

theorem chunkMessage_flatten (s : List Char) : (chunkMessage s).flatten = s := by
  generalize hn : s.length = n
  induction n using Nat.strong_induction_on generalizing s with
  | _ n ih =>
    rcases eq_or_ne s [] with rfl | hne
    · rfl
    · rw [chunkMessage_cons hne, List.flatten_cons]
      have hpos : 0 < s.length := List.length_pos.mpr hne
      rw [ih (s.drop 5000).length (by simp [List.length_drop]; omega) _ rfl]
      exact List.take_append_drop 5000 s

theorem chunkMessage_length_le {s c : List Char} (hc : c ∈ chunkMessage s) :
    c.length ≤ 5000 := by
  rw [chunkMessage] at hc
  obtain ⟨i, _, rfl⟩ := List.mem_map.mp hc
  simp [List.length_take]

theorem chunkMessage_count (s : List Char) :
    (chunkMessage s).length = (s.length + 4999) / 5000 := by
  simp [chunkMessage]

/-- C4: `send_line_message` splits the message into consecutive chunks whose
concatenation in order reproduces the message exactly, every chunk has length
at most 5000, the number of requests equals `ceil(len(message)/5000)`, and the
requests (one per chunk, in chunk order) all address the configured single
recipient. -/
theorem c4_send_chunking (env : Env) (message : List Char) :
    ((send_line_message env message).map PushRequest.text).flatten = message ∧
    (∀ r ∈ send_line_message env message,
      r.text.length ≤ 5000 ∧ r.toRecipient = env.line_user_id) ∧
    (send_line_message env message).length = (message.length + 4999) / 5000 := by
  refine ⟨?_, ?_, ?_⟩
  · rw [send_line_message, List.map_map]
    simpa [Function.comp_def] using chunkMessage_flatten message
  · intro r hr
    rw [send_line_message] at hr
    obtain ⟨c, hc, rfl⟩ := List.mem_map.mp hr
    exact ⟨chunkMessage_length_le hc, rfl⟩
  · rw [send_line_message, List.length_map, chunkMessage_count]

/-- C4 witness: the chunking contract evaluated at a concrete configuration
and message. -/
theorem c4_send_chunking_witness :
    ((send_line_message ⟨"tok".toList, "uid".toList, "purl".toList, "B".toList⟩
        "hello".toList).map PushRequest.text).flatten = "hello".toList ∧
    (∀ r ∈ send_line_message ⟨"tok".toList, "uid".toList, "purl".toList, "B".toList⟩
        "hello".toList, r.text.length ≤ 5000 ∧ r.toRecipient = "uid".toList) ∧
    (send_line_message ⟨"tok".toList, "uid".toList, "purl".toList, "B".toList⟩
        "hello".toList).length = ("hello".toList.length + 4999) / 5000 :=
  c4_send_chunking ⟨"tok".toList, "uid".toList, "purl".toList, "B".toList⟩ "hello".toList

/-- C10: the empty message produces zero chunks and therefore zero push
requests; every non-empty message produces at least one request. -/
theorem c10_empty_message (env : Env) :
    send_line_message env [] = [] ∧
    ∀ message : List Char, message ≠ [] → send_line_message env message ≠ [] := by
  constructor
  · rfl
  · intro m hm
    rw [send_line_message, chunkMessage_cons hm]
    simp

/-- C10 witness: zero requests for the empty message and a request for a
one-character message, at a concrete configuration. -/
theorem c10_empty_message_witness :
    send_line_message ⟨"t".toList, "u".toList, "p".toList, "B".toList⟩ [] = [] ∧
    (['a'] ≠ ([] : List Char) ∧
      send_line_message ⟨"t".toList, "u".toList, "p".toList, "B".toList⟩ ['a'] ≠ []) :=
  ⟨(c10_empty_message ⟨"t".toList, "u".toList, "p".toList, "B".toList⟩).1,
   by decide,
   (c10_empty_message ⟨"t".toList, "u".toList, "p".toList, "B".toList⟩).2 ['a'] (by decide)⟩

/-! ## Character and stripping lemmas -/

theorem dropWhile_eq_self_of_all_false {p : Char → Bool} {l : List Char}
    (h : ∀ c ∈ l, p c = false) : l.dropWhile p = l := by
  cases l with
  | nil => rfl
  | cons a t => simp [List.dropWhile_cons, h a (by simp)]

theorem pyStrip_eq_self {l : List Char} (h : ∀ c ∈ l, pyIsSpace c = false) :
    pyStrip l = l := by
  rw [pyStrip, dropWhile_eq_self_of_all_false h,
    dropWhile_eq_self_of_all_false (fun c hc => h c (List.mem_reverse.mp hc)),
    List.reverse_reverse]

theorem remove_hatsubai_cons2 (c1 c2 : Char) (rest : List Char) :
    remove_hatsubai (c1 :: c2 :: rest) =
      if c1 = '発' ∧ c2 = '売' then remove_hatsubai rest
      else c1 :: remove_hatsubai (c2 :: rest) := rfl

theorem remove_hatsubai_eq_self {l : List Char} (h : ∀ c ∈ l, c ≠ '発') :
    remove_hatsubai l = l := by
  induction l with
  | nil => rfl
  | cons a t ih =>
    cases t with
    | nil => rfl
    | cons b u =>
      have ha : a ≠ '発' := h a (by simp)
      rw [remove_hatsubai_cons2, if_neg (by simp [ha])]
      rw [ih (fun c hc => h c (by simp [hc]))]

theorem remove_hatsubai_append_suffix {l : List Char} (h : ∀ c ∈ l, c ≠ '発') :
    remove_hatsubai (l ++ ['発', '売']) = l := by
  induction l with
  | nil => rfl
  | cons a t ih =>
    cases t with
    | nil =>
      have ha : a ≠ '発' := h a (by simp)
      rw [List.cons_append, List.nil_append, remove_hatsubai_cons2, if_neg (by simp [ha])]
      rfl
    | cons b u =>
      have ha : a ≠ '発' := h a (by simp)
      rw [List.cons_append, List.cons_append, remove_hatsubai_cons2, if_neg (by simp [ha])]
      have := ih (fun c hc => h c (by simp [hc]))
      rw [List.cons_append] at this
      rw [this]

theorem isDig_bounds {c : Char} (h : isDig c = true) :
    48 ≤ c.toNat ∧ c.toNat ≤ 57 := by
  rw [isDig, Bool.and_eq_true, decide_eq_true_eq, decide_eq_true_eq] at h
  exact h

theorem dateChar_not_space {c : Char} (h : isDig c = true ∨ c = '.') :
    pyIsSpace c = false := by
  rcases h with h | rfl
  · obtain ⟨h1, h2⟩ := isDig_bounds h
    rw [pyIsSpace]
    simp only [Bool.or_eq_false_iff, beq_eq_false_iff_ne]
    omega
  · decide

theorem dateChar_ne_hatsu {c : Char} (h : isDig c = true ∨ c = '.') :
    c ≠ '発' := by
  rcases h with h | rfl
  · obtain ⟨h1, h2⟩ := isDig_bounds h
    intro hc
    rw [hc] at h2
    exact absurd h2 (by decide)
  · decide

theorem parseYMD_chars {s : List Char} {v : Nat × Nat × Nat}
    (h : parseYMD s = some v) : ∀ c ∈ s, isDig c = true ∨ c = '.' := by
  unfold parseYMD at h
  split at h
  · rename_i y1 y2 y3 y4 m1 m2 d1 d2
    split at h
    · rename_i hd
      simp only [Bool.and_eq_true] at hd
      intro c hc
      simp only [List.mem_cons, List.not_mem_nil, or_false] at hc
      rcases hc with rfl | rfl | rfl | rfl | rfl | rfl | rfl | rfl | rfl | rfl <;>
        simp [hd.1, hd.2]
    · exact absurd h (by simp)
  · rename_i y1 y2 y3 y4 m1 m2 d1
    split at h
    · rename_i hd
      simp only [Bool.and_eq_true] at hd
      intro c hc
      simp only [List.mem_cons, List.not_mem_nil, or_false] at hc
      rcases hc with rfl | rfl | rfl | rfl | rfl | rfl | rfl | rfl | rfl <;>
        simp [hd.1, hd.2]
    · exact absurd h (by simp)
  · rename_i y1 y2 y3 y4 m1 d1 d2
    split at h
    · rename_i hd
      simp only [Bool.and_eq_true] at hd
      intro c hc
      simp only [List.mem_cons, List.not_mem_nil, or_false] at hc
      rcases hc with rfl | rfl | rfl | rfl | rfl | rfl | rfl | rfl | rfl <;>
        simp [hd.1, hd.2]
    · exact absurd h (by simp)
  · rename_i y1 y2 y3 y4 m1 d1
    split at h
    · rename_i hd
      simp only [Bool.and_eq_true] at hd
      intro c hc
      simp only [List.mem_cons, List.not_mem_nil, or_false] at hc
      rcases hc with rfl | rfl | rfl | rfl | rfl | rfl | rfl | rfl <;>
        simp [hd.1, hd.2]
    · exact absurd h (by simp)
  · exact absurd h (by simp)

/-- C8: a string that parses under the fixed `YYYY.MM.DD` format yields the
same calendar date through the strip-then-parse procedure whether the
localized `発売` suffix is appended or not. -/
theorem c8_suffix_invariance {s : List Char} {v : Nat × Nat × Nat}
    (h : parseYMD s = some v) :
    parse_release_date (s ++ "発売".toList) = some v ∧
    parse_release_date s = some v := by
  have hchars := parseYMD_chars h
  have hnh : ∀ c ∈ s, c ≠ '発' := fun c hc => dateChar_ne_hatsu (hchars c hc)
  have hns : ∀ c ∈ s, pyIsSpace c = false := fun c hc => dateChar_not_space (hchars c hc)
  constructor
  · show parseYMD (pyStrip (remove_hatsubai (s ++ ['発', '売']))) = some v
    rw [remove_hatsubai_append_suffix hnh, pyStrip_eq_self hns]
    exact h
  · show parseYMD (pyStrip (remove_hatsubai s)) = some v
    rw [remove_hatsubai_eq_self hnh, pyStrip_eq_self hns]
    exact h

/-- C8 witness: suffix invariance at a concrete date string. -/
theorem c8_suffix_invariance_witness :
    parseYMD "2024.05.15".toList = some (2024, 5, 15) ∧
    (parse_release_date ("2024.05.15".toList ++ "発売".toList) = some (2024, 5, 15) ∧
      parse_release_date "2024.05.15".toList = some (2024, 5, 15)) :=
  ⟨by decide, c8_suffix_invariance (by decide)⟩

/-! ## Filtering (C1) and parse-failure handling (C2) -/

/-- C1: a record whose release date parses (after stripping the suffix) to
ordinal `d` is retained by the filter iff it occurs in the input and
`d > today` or `today - 90 ≤ d ≤ today`; in particular a record dated
exactly `today - 90` is kept and one dated exactly `today - 91` is
dropped. (`today` is a date ordinal; `91 ≤ today` holds for every real
date, and without it `today - timedelta(days=90)` would itself raise.) -/
theorem c1_filter_window (today : Nat) (books : List Book) (b : Book) (d : Nat)
    (htoday : 91 ≤ today) (hparse : bookOrd b = some d) :
    (b ∈ filter_books_by_3_months_and_upcoming today books ↔
      b ∈ books ∧ (today < d ∨ (today - 90 ≤ d ∧ d ≤ today))) ∧
    (d = today - 90 → b ∈ books →
      b ∈ filter_books_by_3_months_and_upcoming today books) ∧
    (d = today - 91 → b ∉ filter_books_by_3_months_and_upcoming today books) := by
  have hkeep : keepBook today b =
      decide (today < d ∨ (today - 90 ≤ d ∧ d ≤ today)) := by
    rw [keepBook, hparse]
  have hmem : b ∈ filter_books_by_3_months_and_upcoming today books ↔
      b ∈ books ∧ (today < d ∨ (today - 90 ≤ d ∧ d ≤ today)) := by
    rw [filter_books_by_3_months_and_upcoming, List.mem_filter, hkeep,
      decide_eq_true_eq]
  refine ⟨hmem, ?_, ?_⟩
  · intro hd hb
    exact hmem.mpr ⟨hb, Or.inr ⟨by omega, by omega⟩⟩
  · intro hd hb
    have := (hmem.mp hb).2
    omega

/-- C1 witness: with `today` the ordinal of 2024-05-01, a record dated
2024.03.01 (ordinal inside the 90-day window) is kept. -/
theorem c1_filter_window_witness :
    (91 ≤ dateOrd 2024 5 1 ∧
      bookOrd ⟨"T".toList, "2024.03.01".toList, "D".toList⟩ = some (dateOrd 2024 3 1)) ∧
    ((⟨"T".toList, "2024.03.01".toList, "D".toList⟩ : Book) ∈
        filter_books_by_3_months_and_upcoming (dateOrd 2024 5 1)
          [⟨"T".toList, "2024.03.01".toList, "D".toList⟩] ↔
      (⟨"T".toList, "2024.03.01".toList, "D".toList⟩ : Book) ∈
          [(⟨"T".toList, "2024.03.01".toList, "D".toList⟩ : Book)] ∧
        (dateOrd 2024 5 1 < dateOrd 2024 3 1 ∨
          (dateOrd 2024 5 1 - 90 ≤ dateOrd 2024 3 1 ∧
            dateOrd 2024 3 1 ≤ dateOrd 2024 5 1))) ∧
    (dateOrd 2024 3 1 = dateOrd 2024 5 1 - 90 →
      (⟨"T".toList, "2024.03.01".toList, "D".toList⟩ : Book) ∈
          [(⟨"T".toList, "2024.03.01".toList, "D".toList⟩ : Book)] →
      (⟨"T".toList, "2024.03.01".toList, "D".toList⟩ : Book) ∈
        filter_books_by_3_months_and_upcoming (dateOrd 2024 5 1)
          [⟨"T".toList, "2024.03.01".toList, "D".toList⟩]) ∧
    (dateOrd 2024 3 1 = dateOrd 2024 5 1 - 91 →
      (⟨"T".toList, "2024.03.01".toList, "D".toList⟩ : Book) ∉
        filter_books_by_3_months_and_upcoming (dateOrd 2024 5 1)
          [⟨"T".toList, "2024.03.01".toList, "D".toList⟩]) :=
  ⟨⟨by decide, by decide⟩,
   c1_filter_window (dateOrd 2024 5 1) _ _ (dateOrd 2024 3 1) (by decide) (by decide)⟩

/-- A record whose `release_date` does not parse (`"N/A"`). -/
def c2BadBook : Book := ⟨"B".toList, "N/A".toList, "x".toList⟩

/-- A record whose `release_date` parses. -/
def c2GoodBook : Book := ⟨"G".toList, "2024.05.01".toList, "x".toList⟩

/-- C2 counterexample: `sort_books_by_date` does not silently drop a record
with an unparseable date — the whole call raises `ValueError` (`none`),
instead of returning the remaining records. -/
theorem c2_sort_raises_counterexample :
    sort_books_by_date [c2GoodBook, c2BadBook] = none ∧
    sort_books_by_date [c2GoodBook, c2BadBook] ≠ some [c2GoodBook] := by
  constructor
  · decide
  · decide

/-- C2 (amended): during filtering an unparseable record is silently
dropped and the rest are processed as usual, but during sorting any
unparseable record makes the whole call raise `ValueError` (in the
pipeline the sorter only ever receives records that already parsed). -/
theorem c2_parse_failure_handling (today : Nat) (b : Book) (books : List Book)
    (hbad : bookOrd b = none) :
    b ∉ filter_books_by_3_months_and_upcoming today books ∧
    (b ∈ books → sort_books_by_date books = none) := by
  constructor
  · intro hmem
    rw [filter_books_by_3_months_and_upcoming, List.mem_filter] at hmem
    have hk := hmem.2
    rw [keepBook, hbad] at hk
    exact absurd hk (by simp)
  · intro hb
    have hcond : books.all (fun b => (bookOrd b).isSome) = false := by
      rcases hall : books.all (fun b => (bookOrd b).isSome) with _ | _
      · rfl
      · have := List.all_eq_true.mp hall b hb
        rw [hbad] at this
        exact absurd this (by decide)
    rw [sort_books_by_date, hcond]
    simp

/-- C2 witness for the amended claim, at a concrete unparseable record. -/
theorem c2_parse_failure_handling_witness :
    bookOrd c2BadBook = none ∧
    (c2BadBook ∉ filter_books_by_3_months_and_upcoming 739007 [c2GoodBook, c2BadBook] ∧
      (c2BadBook ∈ [c2GoodBook, c2BadBook] →
        sort_books_by_date [c2GoodBook, c2BadBook] = none)) :=
  ⟨by decide, c2_parse_failure_handling 739007 c2BadBook [c2GoodBook, c2BadBook] (by decide)⟩

/-! ## Sorting lemmas (C5) -/

theorem insertDesc_perm (x : Book) (l : List Book) :
    (insertDesc x l).Perm (x :: l) := by
  induction l with
  | nil => exact List.Perm.refl _
  | cons y ys ih =>
    rw [insertDesc]
    split
    · exact List.Perm.refl _
    · exact (ih.cons y).trans (List.Perm.swap x y ys)

theorem sortDesc_perm (l : List Book) : (sortDesc l).Perm l := by
  induction l with
  | nil => exact List.Perm.refl _
  | cons x xs ih => exact (insertDesc_perm x (sortDesc xs)).trans (ih.cons x)

theorem insertDesc_pairwise {x : Book} {l : List Book}
    (hl : l.Pairwise (fun a b => sortKeyOrd b ≤ sortKeyOrd a)) :
    (insertDesc x l).Pairwise (fun a b => sortKeyOrd b ≤ sortKeyOrd a) := by
  induction l with
  | nil => simp [insertDesc]
  | cons y ys ih =>
    rw [List.pairwise_cons] at hl
    obtain ⟨hy, hys⟩ := hl
    rw [insertDesc]
    split
    · rename_i hle
      refine List.pairwise_cons.mpr ⟨?_, List.pairwise_cons.mpr ⟨hy, hys⟩⟩
      intro z hz
      rcases List.mem_cons.mp hz with rfl | hz2
      · exact hle
      · exact le_trans (hy z hz2) hle
    · rename_i hgt
      have hxy : sortKeyOrd x ≤ sortKeyOrd y := le_of_lt (Nat.lt_of_not_le hgt)
      refine List.pairwise_cons.mpr ⟨?_, ih hys⟩
      intro z hz
      rcases List.mem_cons.mp ((insertDesc_perm x ys).mem_iff.mp hz) with rfl | hz2
      · exact hxy
      · exact hy z hz2

theorem sortDesc_pairwise (l : List Book) :
    (sortDesc l).Pairwise (fun a b => sortKeyOrd b ≤ sortKeyOrd a) := by
  induction l with
  | nil => simp [sortDesc]
  | cons x xs ih => exact insertDesc_pairwise ih

theorem insertDesc_filter (x : Book) (l : List Book) (k : Nat) :
    (insertDesc x l).filter (fun b => sortKeyOrd b == k) =
      if sortKeyOrd x == k then x :: l.filter (fun b => sortKeyOrd b == k)
      else l.filter (fun b => sortKeyOrd b == k) := by
  induction l with
  | nil =>
    cases hx : (sortKeyOrd x == k) <;> simp [insertDesc, List.filter, hx]
  | cons y ys ih =>
    rw [insertDesc]
    split
    · rename_i hle
      cases hx : (sortKeyOrd x == k) <;> simp [List.filter_cons, hx]
    · rename_i hgt
      have hlt : sortKeyOrd x < sortKeyOrd y := Nat.lt_of_not_le hgt
      rw [List.filter_cons, ih, List.filter_cons]
      cases hx : (sortKeyOrd x == k) with
      | false => simp [hx]
      | true =>
        have hxk : sortKeyOrd x = k := by simpa using hx
        have hy : (sortKeyOrd y == k) = false := by
          simp only [beq_eq_false_iff_ne]
          omega
        simp [hx, hy]

theorem sortDesc_filter (l : List Book) (k : Nat) :
    (sortDesc l).filter (fun b => sortKeyOrd b == k) =
      l.filter (fun b => sortKeyOrd b == k) := by
  induction l with
  | nil => rfl
  | cons x xs ih =>
    show (insertDesc x (sortDesc xs)).filter _ = _
    rw [insertDesc_filter, List.filter_cons]
    cases hx : (sortKeyOrd x == k) <;> simp [hx, ih]

/-- C5: on records whose dates all parse, `sort_books_by_date` returns a
permutation of the input, non-increasing by parsed release date, and
stable: for every date ordinal `k` the records with that date appear in
their original relative order (the sublists selected by each key are
unchanged). -/
theorem c5_sort_stable_desc (books : List Book)
    (h : books.all (fun b => (bookOrd b).isSome) = true) :
    ∃ l, sort_books_by_date books = some l ∧ l.Perm books ∧
      l.Pairwise (fun a b => sortKeyOrd b ≤ sortKeyOrd a) ∧
      ∀ k, l.filter (fun b => sortKeyOrd b == k) =
        books.filter (fun b => sortKeyOrd b == k) :=
  ⟨sortDesc books, by rw [sort_books_by_date, h]; rfl, sortDesc_perm books,
    sortDesc_pairwise books, fun k => sortDesc_filter books k⟩

/-- C5 witness: the sort contract at three concrete records, two of them
tied on the same date (one via the suffixed form). -/
theorem c5_sort_stable_desc_witness :
    ([⟨"a".toList, "2024.05.01".toList, "x".toList⟩,
      ⟨"b".toList, "2024.06.01".toList, "x".toList⟩,
      ⟨"c".toList, "2024.05.01発売".toList, "x".toList⟩] : List Book).all
        (fun b => (bookOrd b).isSome) = true ∧
    (∃ l, sort_books_by_date
        [⟨"a".toList, "2024.05.01".toList, "x".toList⟩,
         ⟨"b".toList, "2024.06.01".toList, "x".toList⟩,
         ⟨"c".toList, "2024.05.01発売".toList, "x".toList⟩] = some l ∧
      l.Perm [⟨"a".toList, "2024.05.01".toList, "x".toList⟩,
              ⟨"b".toList, "2024.06.01".toList, "x".toList⟩,
              ⟨"c".toList, "2024.05.01発売".toList, "x".toList⟩] ∧
      l.Pairwise (fun a b => sortKeyOrd b ≤ sortKeyOrd a) ∧
      ∀ k, l.filter (fun b => sortKeyOrd b == k) =
        ([⟨"a".toList, "2024.05.01".toList, "x".toList⟩,
          ⟨"b".toList, "2024.06.01".toList, "x".toList⟩,
          ⟨"c".toList, "2024.05.01発売".toList, "x".toList⟩] : List Book).filter
            (fun b => sortKeyOrd b == k)) :=
  ⟨by decide, c5_sort_stable_desc _ (by decide)⟩

/-! ## Fetch loop (C6) and formatter (C7) -/

theorem fetchAllGo_spec (net : List Char → Response) (base : List Char) :
    ∀ (pairs : List (Nat × Nat)) (acc : List Book),
      (∀ cp ∈ pairs, (fetch_books_from_page net (pageUrl base cp.1 cp.2)).isSome = true) →
      fetchAllGo net base acc pairs =
        (pairs.map (fun cp => pageUrl base cp.1 cp.2),
         some (acc ++ (pairs.map (fun cp =>
           (fetch_books_from_page net (pageUrl base cp.1 cp.2)).getD [])).flatten)) := by
  intro pairs
  induction pairs with
  | nil => intro acc _; simp [fetchAllGo]
  | cons cp rest ih =>
    intro acc h
    obtain ⟨c, p⟩ := cp
    obtain ⟨bs, hbs⟩ := Option.isSome_iff_exists.mp (h (c, p) (by simp))
    rw [fetchAllGo]
    simp only [hbs]
    rw [ih (acc ++ bs) (fun cp2 h2 => h cp2 (by simp [h2]))]
    simp [hbs, List.append_assoc]

/-- C6: when every page fetch returns normally, `fetch_all_books` requests
exactly 8 URLs — `{base}/{category}?p={page}` for category 7 then 8 (outer
loop) and page 1 through 4 (inner loop) — and returns the concatenation of
the per-page results in that iteration order; any page whose response
status is not 200 contributes the empty list without aborting the run. -/
theorem c6_fetch_all (net : List Char → Response) (base : List Char)
    (h : categoryPages.all
      (fun cp => (fetch_books_from_page net (pageUrl base cp.1 cp.2)).isSome) = true) :
    (fetch_all_books net base).1 =
      [base ++ "/7?p=1".toList, base ++ "/7?p=2".toList, base ++ "/7?p=3".toList,
       base ++ "/7?p=4".toList, base ++ "/8?p=1".toList, base ++ "/8?p=2".toList,
       base ++ "/8?p=3".toList, base ++ "/8?p=4".toList] ∧
    (fetch_all_books net base).2 =
      some ((categoryPages.map (fun cp =>
        (fetch_books_from_page net (pageUrl base cp.1 cp.2)).getD [])).flatten) ∧
    (∀ url, (net url).status ≠ 200 → fetch_books_from_page net url = some []) := by
  have hmain := fetchAllGo_spec net base categoryPages [] (List.all_eq_true.mp h)
  refine ⟨?_, ?_, ?_⟩
  · rw [fetch_all_books, hmain]
    rfl
  · rw [fetch_all_books, hmain]
    rfl
  · intro url hst
    rw [fetch_books_from_page]
    simp only [if_pos hst]

/-- C6 witness: a network answering 404 everywhere still gets all 8 page
requests, in order, and yields the empty concatenation. -/
theorem c6_fetch_all_witness :
    categoryPages.all
      (fun cp => (fetch_books_from_page (fun _ => ⟨404, []⟩)
        (pageUrl "B".toList cp.1 cp.2)).isSome) = true ∧
    ((fetch_all_books (fun _ => ⟨404, []⟩) "B".toList).1 =
      ["B".toList ++ "/7?p=1".toList, "B".toList ++ "/7?p=2".toList,
       "B".toList ++ "/7?p=3".toList, "B".toList ++ "/7?p=4".toList,
       "B".toList ++ "/8?p=1".toList, "B".toList ++ "/8?p=2".toList,
       "B".toList ++ "/8?p=3".toList, "B".toList ++ "/8?p=4".toList] ∧
    (fetch_all_books (fun _ => ⟨404, []⟩) "B".toList).2 =
      some ((categoryPages.map (fun cp =>
        (fetch_books_from_page (fun _ => ⟨404, []⟩)
          (pageUrl "B".toList cp.1 cp.2)).getD [])).flatten) ∧
    (∀ url, ((fun (_ : List Char) => (⟨404, []⟩ : Response)) url).status ≠ 200 →
      fetch_books_from_page (fun _ => ⟨404, []⟩) url = some [])) :=
  ⟨by decide, c6_fetch_all (fun _ => ⟨404, []⟩) "B".toList (by decide)⟩

theorem foldl_append_blocks (books : List Book) : ∀ acc : List Char,
    books.foldl (fun msg b => msg ++ bookBlock b) acc =
      acc ++ (books.map bookBlock).flatten := by
  induction books with
  | nil => intro acc; simp
  | cons b bs ih =>
    intro acc
    rw [List.foldl_cons, ih, List.map_cons, List.flatten_cons, List.append_assoc]

/-- C7: `format_message` returns exactly the fixed "no new books found"
message on the empty list, and on a non-empty list the fixed header
followed by one block per record — title, release date and description on
separate labeled lines in that order, the block ending with the separating
blank line — in input order. -/
theorem c7_format_message :
    format_message [] = noBooksMessage ∧
    ∀ books : List Book, books ≠ [] →
      format_message books = digestHeader ++ (books.map bookBlock).flatten := by
  constructor
  · rfl
  · intro books hne
    rw [format_message, if_neg hne, foldl_append_blocks]

/-- C7 witness: the formatter evaluated at the empty list and at one
concrete record. -/
theorem c7_format_message_witness :
    format_message [] = noBooksMessage ∧
    (([⟨"T".toList, "2024.05.01".toList, "D".toList⟩] : List Book) ≠ [] ∧
      format_message [⟨"T".toList, "2024.05.01".toList, "D".toList⟩] =
        digestHeader ++
          (([⟨"T".toList, "2024.05.01".toList, "D".toList⟩] : List Book).map
            bookBlock).flatten) :=
  ⟨c7_format_message.1, by decide,
   c7_format_message.2 [⟨"T".toList, "2024.05.01".toList, "D".toList⟩] (by decide)⟩

/-! ## Extraction (C3) and orchestration (C9) -/

/-- An item with no `div.txt` child and a perfectly good date span. -/
def c3Item : Item := ⟨none, some "2024.05.01".toList⟩

/-- A network whose (200) page contains only `c3Item`. -/
def c3Net : List Char → Response := fun _ => ⟨200, [c3Item]⟩

/-- C3 counterexample: when the `txt` div itself is missing, extraction is
not total — `item.find('div', class_='txt').find('a')` raises
`AttributeError` — so no `"N/A"` record is produced and the page fetch
aborts instead of including the record. -/
theorem c3_missing_txtdiv_counterexample :
    extract_book c3Item = none ∧
    fetch_books_from_page c3Net "url".toList = none := by
  constructor
  · rfl
  · rfl

theorem mapM_extract_length : ∀ l : List Item,
    (∀ it ∈ l, it.txtDiv.isSome = true) →
    ∃ bs, l.mapM extract_book = some bs ∧ bs.length = l.length := by
  intro l
  induction l with
  | nil => intro _; exact ⟨[], rfl, rfl⟩
  | cons x xs ih =>
    intro h
    obtain ⟨t, ht⟩ := Option.isSome_iff_exists.mp (h x (by simp))
    have hx : ∃ b, extract_book x = some b := by
      rw [extract_book, ht]
      exact ⟨_, rfl⟩
    obtain ⟨b, hb⟩ := hx
    obtain ⟨bs, hbs, hlen⟩ := ih (fun it hit => h it (by simp [hit]))
    refine ⟨b :: bs, ?_, by simp [hlen]⟩
    rw [List.mapM_cons, hb, hbs]
    rfl

/-- C3 (amended): provided the item's `txt` div is present, the three
fields are extracted totally and each independently falls back to the
`"N/A"` sentinel exactly when its own sub-element is missing (first link
for the title, date span for the release date, a second paragraph for the
description), and on a 200 page whose items all have a `txt` div every
record is included in the fetch result; an item with no `txt` div instead
raises `AttributeError`. -/
theorem c3_field_fallbacks :
    (∀ (item : Item) (t : TxtDiv), item.txtDiv = some t →
      ∃ b, extract_book item = some b ∧
        (t.firstLink = none → b.title = naSentinel) ∧
        (∀ s, t.firstLink = some s → b.title = pyStrip s) ∧
        (item.dateSpan = none → b.release_date = naSentinel) ∧
        (∀ s, item.dateSpan = some s → b.release_date = pyStrip s) ∧
        (t.paragraphs.length ≤ 1 → b.description = naSentinel) ∧
        (∀ h2 : 1 < t.paragraphs.length,
          b.description = pyStrip (t.paragraphs.get ⟨1, h2⟩))) ∧
    (∀ (net : List Char → Response) (url : List Char),
      (net url).status = 200 →
      (∀ it ∈ (net url).items, it.txtDiv.isSome = true) →
      ∃ bs, fetch_books_from_page net url = some bs ∧
        bs.length = (net url).items.length) := by
  constructor
  · intro item t ht
    rw [extract_book, ht]
    refine ⟨_, rfl, ?_, ?_, ?_, ?_, ?_, ?_⟩
    · intro hfl; simp only [hfl]
    · intro s hfl; simp only [hfl]
    · intro hds; simp only [hds]
    · intro s hds; simp only [hds]
    · intro hlen
      show (if h : 1 < t.paragraphs.length then pyStrip (t.paragraphs.get ⟨1, h⟩)
            else naSentinel) = naSentinel
      rw [dif_neg (by omega)]
    · intro h2
      show (if h : 1 < t.paragraphs.length then pyStrip (t.paragraphs.get ⟨1, h⟩)
            else naSentinel) = pyStrip (t.paragraphs.get ⟨1, h2⟩)
      rw [dif_pos h2]
  · intro net url h200 hok
    have hfetch : fetch_books_from_page net url = (net url).items.mapM extract_book := by
      rw [fetch_books_from_page, if_neg (by simp [h200])]
    rw [hfetch]
    exact mapM_extract_length (net url).items hok

/-- C3 witness for the amended claim: an item whose `txt` div is present
but empty extracts to an all-`"N/A"` record, and a 200 page of such items
fetches completely. -/
theorem c3_field_fallbacks_witness :
    (⟨some ⟨none, []⟩, none⟩ : Item).txtDiv = some ⟨none, []⟩ ∧
    (∃ b, extract_book ⟨some ⟨none, []⟩, none⟩ = some b ∧
      ((⟨none, []⟩ : TxtDiv).firstLink = none → b.title = naSentinel) ∧
      (∀ s, (⟨none, []⟩ : TxtDiv).firstLink = some s → b.title = pyStrip s) ∧
      ((⟨some ⟨none, []⟩, none⟩ : Item).dateSpan = none → b.release_date = naSentinel) ∧
      (∀ s, (⟨some ⟨none, []⟩, none⟩ : Item).dateSpan = some s → b.release_date = pyStrip s) ∧
      ((⟨none, []⟩ : TxtDiv).paragraphs.length ≤ 1 → b.description = naSentinel) ∧
      (∀ h2 : 1 < (⟨none, []⟩ : TxtDiv).paragraphs.length,
        b.description = pyStrip ((⟨none, []⟩ : TxtDiv).paragraphs.get ⟨1, h2⟩))) ∧
    (∃ bs, fetch_books_from_page (fun _ => ⟨200, [⟨some ⟨none, []⟩, none⟩]⟩) "u".toList = some bs ∧
      bs.length = ((fun (_ : List Char) => (⟨200, [⟨some ⟨none, []⟩, none⟩]⟩ : Response)) "u".toList).items.length) :=
  ⟨rfl, c3_field_fallbacks.1 ⟨some ⟨none, []⟩, none⟩ ⟨none, []⟩ rfl,
   c3_field_fallbacks.2 (fun _ => ⟨200, [⟨some ⟨none, []⟩, none⟩]⟩) "u".toList rfl
     (by decide)⟩

/-- C9 counterexample: at a concrete invocation the body returned by
`lambda_handler` is `json.dumps('News sent successfully!')`, the string
with surrounding double-quote characters, and not the bare string
`News sent successfully!`. -/
theorem c9_body_counterexample :
    (lambda_handler 0 0 (fun _ => ⟨404, []⟩)
        ⟨"tok".toList, "uid".toList, "purl".toList, "B".toList⟩ 739007).map
      (fun r => r.2.body) ≠ some ("News sent successfully!".toList) ∧
    (lambda_handler 0 0 (fun _ => ⟨404, []⟩)
        ⟨"tok".toList, "uid".toList, "purl".toList, "B".toList⟩ 739007).map
      (fun r => r.2.body) = some ("\"News sent successfully!\"".toList) := by
  constructor
  · decide
  · decide

/-- C9 (amended): for every event and context, whenever the pipeline
completes without an exception `lambda_handler` runs it once (returning its
push requests unchanged) and yields status code 200 with body
`json.dumps('News sent successfully!')` — the JSON-serialized string,
including its surrounding double-quote characters. -/
theorem c9_lambda_success {α β : Type} (event : α) (context : β)
    (net : List Char → Response) (env : Env) (today : Nat)
    (reqs : List PushRequest) (h : main_run net env today = some reqs) :
    lambda_handler event context net env today =
      some (reqs, ⟨200, json_dumps_str "News sent successfully!".toList⟩) ∧
    json_dumps_str "News sent successfully!".toList =
      "\"News sent successfully!\"".toList := by
  constructor
  · rw [lambda_handler, h]
    rfl
  · decide

/-- C9 witness: a run over an all-404 network sends one "no books" push
request and the handler returns it with the fixed 200 payload. -/
theorem c9_lambda_success_witness :
    main_run (fun _ => ⟨404, []⟩)
        ⟨"tok".toList, "uid".toList, "purl".toList, "B".toList⟩ 739007 =
      some [⟨"purl".toList, "Bearer tok".toList, "uid".toList, noBooksMessage⟩] ∧
    (lambda_handler 1 1 (fun _ => ⟨404, []⟩)
        ⟨"tok".toList, "uid".toList, "purl".toList, "B".toList⟩ 739007 =
      some ([⟨"purl".toList, "Bearer tok".toList, "uid".toList, noBooksMessage⟩],
        ⟨200, json_dumps_str "News sent successfully!".toList⟩) ∧
      json_dumps_str "News sent successfully!".toList =
        "\"News sent successfully!\"".toList) :=
  ⟨by decide,
   c9_lambda_success 1 1 (fun _ => ⟨404, []⟩)
     ⟨"tok".toList, "uid".toList, "purl".toList, "B".toList⟩ 739007
     [⟨"purl".toList, "Bearer tok".toList, "uid".toList, noBooksMessage⟩] (by decide)⟩
